import Mathlib

/-!
# Verification of the HLS streaming service (src/main.py)

Shallow embedding of the single-file FastAPI application.  The embedding
mirrors the `/stream/` request handler `stream_video`, the cookie-file
parser `load_cookies_header`, and the module-level constants.  External
collaborators (the yt-dlp resolver, the `ffmpeg` subprocess, the
filesystem) enter as an explicit environment record; the handler itself is
a pure function of that environment that also produces an observation
trace (selected formats, built command line, existence checks performed,
kill invocations, and operations on the admission semaphore).
-/

/-- One entry of `info["formats"]`, the rendition catalog returned by the
resolver, as a Python dict.  For `vcodec`, `acodec`, `height` and `ext`,
`none` models a key that is absent or has value `None` — both make
`f.get(k)` return `None`, which is all the handler observes.  For `abr`
the two cases behave differently under `f.get("abr", 0)`, so they are kept
apart: `none` is an absent key (the default `0` is used), `some none` is a
key present with value `None` (Python `None` reaches the comparison), and
`some (some q)` is a numeric bitrate. -/
structure Format where
  vcodec : Option String
  acodec : Option String
  height : Option Int
  ext : Option String
  abr : Option (Option ℚ)
  url : String
deriving DecidableEq

/-- The Python exceptions that can travel through the handler's
`try` block. -/
inductive PyExc where
  | stopIteration
  | httpException (status : Nat) (detail : String)
  | valueErrorEmptyMax
  | typeErrorCmp
  | generic (msg : String)
deriving DecidableEq

/-- Python `str(e)` for each exception, as the handler's
`except Exception as e: raise HTTPException(status_code=500, detail=str(e))`
observes it.  For a Starlette/FastAPI `HTTPException`,
`__str__` returns `f"{self.status_code}: {self.detail}"`.  For the built-in
errors the CPython messages are used ( `max()` on an empty sequence raises
`ValueError`, and ordering `None` against a number raises `TypeError`). -/
def pyExcStr : PyExc → String
  | .stopIteration => ""
  | .httpException status detail => toString status ++ ": " ++ detail
  | .valueErrorEmptyMax => "max() arg is an empty sequence"
  | .typeErrorCmp =>
      "\x27>\x27 not supported between instances of \x27int\x27 and \x27NoneType\x27"
  | .generic msg => msg

/-- Python `a > b` between values produced by the `max` key function
`lambda x: x.get("abr", 0)`: both operands numeric compares them; if either
operand is Python `None` the comparison raises `TypeError`. -/
def pyGt : Option ℚ → Option ℚ → Except PyExc Bool
  | some a, some b => .ok (decide (b < a))
  | _, _ => .error .typeErrorCmp

/-- The key function `lambda x: x.get("abr", 0)` of line 82: an absent
`abr` key defaults to `0`; a key present with value `None` yields Python
`None`; a numeric value yields itself. -/
def abrKey (f : Format) : Option ℚ :=
  match f.abr with
  | none => some 0
  | some none => none
  | some (some q) => some q

/-- The loop of CPython `max(iterable, key=...)` after the first element
has been taken as the running best: each further element replaces the best
exactly when its key compares strictly greater (so on ties the earliest
element wins), and a `None`-to-number comparison aborts with `TypeError`. -/
def pyMaxGo (key : Format → Option ℚ) (best : Format) :
    List Format → Except PyExc Format
  | [] => .ok best
  | y :: ys =>
    match pyGt (key y) (key best) with
    | .error e => .error e
    | .ok true => pyMaxGo key y ys
    | .ok false => pyMaxGo key best ys

/-- CPython `max(iterable, key=...)`: `ValueError` on an empty iterable,
otherwise the running-maximum loop seeded with the first element. -/
def pyMax (key : Format → Option ℚ) : List Format → Except PyExc Format
  | [] => .error .valueErrorEmptyMax
  | x :: xs => pyMaxGo key x xs

/-- The generator-expression predicate of lines 72-78: the handler keeps a
format with `f.get("vcodec") != "none"` (note: an absent/None vcodec also
passes, and no condition on `acodec` is made), `f.get("height") ==
resolution`, and `f.get("ext") == "mp4"`. -/
def isVideoCandidate (resolution : Int) (f : Format) : Bool :=
  f.vcodec != some "none" && f.height == some resolution && f.ext == some "mp4"

/-- The generator-expression predicate of line 81: audio-only candidates
are the formats with `f.get("vcodec") == "none"` and
`f.get("acodec") != "none"`. -/
def isAudioCandidate (f : Format) : Bool :=
  f.vcodec == some "none" && f.acodec != some "none"

/-- Line 59, `url.split("?", 1)[0]`: the prefix of the URL before the
first `?` character (the whole URL when it has no `?`). -/
def cleanUrl (url : String) : String :=
  (url.toList.takeWhile (fun c => c != '?')).asString

/-- The per-line step of `load_cookies_header` (lines 37-42): a line
starting with `#`, or blank after stripping, is skipped; the stripped line
is split on tabs; only lines with at least 7 fields contribute, as
`parts[5]=parts[6]`.  (Python `str.strip()` and Lean `String.trim` agree
on the whitespace relevant to cookie files: spaces, tabs, CR and LF.) -/
def cookiePair (line : String) : Option String :=
  if line.startsWith "#" || line.trim == "" then none
  else if 7 ≤ (line.trim.splitOn "\t").length then
    some ((line.trim.splitOn "\t").getD 5 "" ++ "=" ++ (line.trim.splitOn "\t").getD 6 "")
  else none

/-- `load_cookies_header` of lines 34-43, with the file contents given as
its list of lines: collect the `name=value` pairs of the accepted lines in
file order and join them with `"; "`. -/
def load_cookies_header (lines : List String) : String :=
  String.intercalate "; " (lines.filterMap cookiePair)

/-- The capacity of `download_semaphore = asyncio.Semaphore(30)`
(line 27). -/
def download_semaphore_capacity : Nat := 30

/-- The attempt budget of the readiness loop `for _ in range(20)`
(line 124). -/
def maxAttempts : Nat := 20

/-- `HLS_ROOT = pathlib.Path(tempfile.gettempdir()) / "hls_segments"`
(line 19), with the standard temporary directory. -/
def hlsRoot : String := "/tmp/hls_segments"

/-- The readiness loop of lines 124-127, indexed by the number of the
current check and the remaining fuel of `range(20)`: each iteration checks
`playlist_path.exists()` once, breaking on success and sleeping 0.5s
otherwise.  Returns (found, number of existence checks performed, number
of sleeps performed). -/
def pollAux (ex : Nat → Bool) : Nat → Nat → Bool × Nat × Nat
  | _, 0 => (false, 0, 0)
  | i, fuel + 1 =>
    if ex i then (true, 1, 0)
    else
      let r := pollAux ex (i + 1) fuel
      (r.1, r.2.1 + 1, r.2.2 + 1)

/-- The whole readiness poll: up to `maxAttempts = 20` existence checks,
starting at check 0. -/
def poll (ex : Nat → Bool) : Bool × Nat × Nat :=
  pollAux ex 0 maxAttempts

/-- The environment of one request: the external collaborators of the
handler.  `extract` is `ydl.extract_info` (already restricted to the
`formats` list the handler reads); `cookieLines` is the contents of the
cookies file read by `load_cookies_header`; `sessionId` is the value of
`uuid.uuid4().hex` drawn for this request; `spawnResult` is whether
`subprocess.Popen` succeeds; `playlistExists` tells, for each existence
check number, whether `index.m3u8` is present in the workspace at that
check. -/
structure Env where
  extract : String → Except String (List Format)
  cookieLines : List String
  sessionId : String
  spawnResult : Except String Unit
  playlistExists : Nat → Bool

/-- Observation trace of one handler run: which URL was handed to the
resolver, the selected formats, the workspace directory created, the argv
built for `ffmpeg`, how many existence checks and sleeps the readiness
loop performed, how many times `proc.kill()` ran, and how many acquire /
release operations were performed on `download_semaphore`. -/
structure Trace where
  resolvedUrl : Option String := none
  videoSel : Option Format := none
  audioSel : Option Format := none
  mkdirDir : Option String := none
  cmd : Option (List String) := none
  checks : Nat := 0
  sleeps : Nat := 0
  killCount : Nat := 0
  semAcquires : Nat := 0
  semReleases : Nat := 0
deriving DecidableEq

/-- The handler's HTTP outcome: a redirect (to the playlist path) or an
`HTTPException` with a status code and a detail string. -/
inductive StreamResult where
  | redirect (location : String)
  | httpError (status : Nat) (detail : String)
deriving DecidableEq

/-- A handler run: the HTTP outcome together with the observation trace. -/
structure Outcome where
  response : StreamResult
  trace : Trace
deriving DecidableEq

/-- The argv of line 93-119: `ffmpeg` with the header block repeated
before each of the two inputs, stream copy, HLS output into the session
workspace. -/
def ffmpegArgs (hdr : List String) (vidUrl audUrl sessDir : String) :
    List String :=
  ["ffmpeg", "-hide_banner", "-loglevel", "error"] ++ hdr ++
    ["-i", vidUrl] ++ hdr ++ ["-i", audUrl] ++
    ["-c:v", "copy", "-c:a", "copy", "-f", "hls", "-hls_time", "4",
     "-hls_list_size", "0", "-hls_flags", "delete_segments+append_list",
     "-hls_segment_filename", sessDir ++ "/seg_%03d.ts",
     sessDir ++ "/index.m3u8"]

/-- Lines 86-134, after both formats have been selected: allocate the
session workspace (line 86-88), build the cookie header and the `ffmpeg`
argv (91-119), spawn the subprocess (120), run the readiness poll
(123-127); on timeout kill the subprocess once and raise
`HTTPException(500, "HLS playlist generation failed")` (129-130), on
readiness return the redirect location `/hls/{session_id}/index.m3u8`
(133-134). -/
def afterSelect (env : Env) (vid aud : Format) (t : Trace) :
    Except PyExc String × Trace :=
  let sessDir := hlsRoot ++ "/" ++ env.sessionId
  let t1 := { t with mkdirDir := some sessDir }
  let hdr := ["-headers", "Cookie: " ++ load_cookies_header env.cookieLines ++ "\r\n"]
  let t2 := { t1 with cmd := some (ffmpegArgs hdr vid.url aud.url sessDir) }
  match env.spawnResult with
  | .error m => (.error (.generic m), t2)
  | .ok _ =>
    match poll env.playlistExists with
    | (true, c, s) =>
      (.ok ("/hls/" ++ env.sessionId ++ "/index.m3u8"),
       { t2 with checks := c, sleeps := s })
    | (false, c, s) =>
      (.error (.httpException 500 "HLS playlist generation failed"),
       { t2 with checks := c, sleeps := s, killCount := 1 })

/-- The body of the handler's `try` block (lines 60-134): strip the query
string (59), resolve the catalog (68-69), pick the video format with
`next` — `StopIteration` when nothing matches (72-78) —, pick the audio
format with `max` (80-83), then the session/spawn/poll phase.  Any
resolver failure surfaces as a generic Python exception.  Note that no
operation on `download_semaphore` occurs anywhere in the handler. -/
def streamBody (env : Env) (url : String) (resolution : Int) :
    Except PyExc String × Trace :=
  match env.extract (cleanUrl url) with
  | .error m => (.error (.generic m), { resolvedUrl := some (cleanUrl url) })
  | .ok formats =>
    match formats.find? (isVideoCandidate resolution) with
    | none => (.error .stopIteration, { resolvedUrl := some (cleanUrl url) })
    | some vid =>
      match pyMax abrKey (formats.filter isAudioCandidate) with
      | .error e =>
        (.error e, { resolvedUrl := some (cleanUrl url), videoSel := some vid })
      | .ok aud =>
        afterSelect env vid aud
          { resolvedUrl := some (cleanUrl url), videoSel := some vid,
            audioSel := some aud }

/-- `stream_video` (lines 57-140): run the `try` body, then the except
clauses in order.  `except StopIteration` (136) answers 404 with
`f"No {resolution}p stream available"`; `except Exception as e` (138)
catches every other exception — including the `HTTPException` raised on
readiness timeout inside the `try` block — and answers 500 with
`str(e)` as the detail. -/
def stream_video (env : Env) (url : String) (resolution : Int) : Outcome :=
  match streamBody env url resolution with
  | (.ok loc, t) => { response := .redirect loc, trace := t }
  | (.error .stopIteration, t) =>
    { response := .httpError 404 ("No " ++ toString resolution ++ "p stream available"),
      trace := t }
  | (.error e, t) => { response := .httpError 500 (pyExcStr e), trace := t }

/-- The numeric value the claim assigns to a rendition's bitrate: the
number when present, `0` otherwise. -/
def abrVal (f : Format) : ℚ :=
  match f.abr with
  | some (some q) => q
  | _ => 0

/-- The cookie pairs as the claim describes them: walk the lines in file
order; skip lines starting with `#` and blank lines; skip lines with
fewer than 7 tab-separated fields; from every other line keep
`field6=field7` (sixth and seventh field, 1-indexed, of the stripped
line). -/
def cookiePairsSpec : List String → List String
  | [] => []
  | l :: ls =>
    if l.startsWith "#" then cookiePairsSpec ls
    else if l.trim == "" then cookiePairsSpec ls
    else if 7 ≤ (l.trim.splitOn "\t").length then
      ((l.trim.splitOn "\t").getD 5 "" ++ "=" ++ (l.trim.splitOn "\t").getD 6 "")
        :: cookiePairsSpec ls
    else cookiePairsSpec ls

/-- The cookie header as the claim describes it: the kept pairs joined
with `"; "`. -/
def cookiesHeaderSpec (lines : List String) : String :=
  String.intercalate "; " (cookiePairsSpec lines)

/-! ## Concrete catalogs and environments used as test inputs -/

/-- A well-formed video-only 1080p mp4 rendition. -/
def fmtVid : Format :=
  ⟨some "avc1.640028", some "none", some 1080, some "mp4", none,
    "https://cdn.example/video.mp4"⟩

/-- A well-formed audio-only rendition at 128 kbps. -/
def fmtAud : Format :=
  ⟨some "none", some "opus", none, some "webm", some (some 128),
    "https://cdn.example/audio.webm"⟩

/-- A muxed rendition: 1080p mp4 that carries BOTH video and audio
(`acodec` present, not `"none"`). -/
def fmtMux : Format :=
  ⟨some "avc1.640028", some "mp4a.40.2", some 1080, some "mp4",
    some (some 96), "https://cdn.example/muxed.mp4"⟩

/-- An audio-only rendition whose `abr` key is present with value null. -/
def fmtAudNull : Format :=
  ⟨some "none", some "mp4a.40.2", none, some "m4a", some none,
    "https://cdn.example/audio.m4a"⟩

/-- A second audio-only rendition, at 64 kbps. -/
def fmtAud64 : Format :=
  ⟨some "none", some "mp4a.40.5", none, some "m4a", some (some 64),
    "https://cdn.example/audio64.m4a"⟩

/-- Environment for the C2 counterexample: the catalog offers the muxed
1080p mp4 first, then one audio-only rendition; everything else
succeeds. -/
def envC2 : Env :=
  ⟨fun _ => .ok [fmtMux, fmtAud], [], "sess2", .ok (), fun _ => true⟩

/-- Environment for the C2 witness: a plain video-only + audio-only
catalog. -/
def envC2w : Env :=
  ⟨fun _ => .ok [fmtVid, fmtAud], [], "sess2w", .ok (), fun _ => true⟩

/-- Environment for the C3 counterexample: catalog with a matching video,
an audio-only rendition with a null bitrate, and an audio-only rendition
at 128 kbps. -/
def envC3 : Env :=
  ⟨fun _ => .ok [fmtVid, fmtAudNull, fmtAud], [], "sess3", .ok (), fun _ => true⟩

/-- Environment for the C3 witness: matching video plus two numeric
audio-only renditions, best one last. -/
def envC3w : Env :=
  ⟨fun _ => .ok [fmtVid, fmtAud64, fmtAud], [], "sess3w", .ok (), fun _ => true⟩

/-- Environment for C4: healthy catalog and spawn, but the playlist file
never appears. -/
def envC4 : Env :=
  ⟨fun _ => .ok [fmtVid, fmtAud], [], "sess4", .ok (), fun _ => false⟩

/-- Environment for C5: healthy catalog and spawn; the playlist file is
present from the 4th existence check (index 3) on. -/
def envC5 : Env :=
  ⟨fun _ => .ok [fmtVid, fmtAud], [], "sess5", .ok (), fun i => decide (3 ≤ i)⟩

/-- Environment for C6: the catalog has no rendition at all matching the
requested height in mp4. -/
def envC6 : Env :=
  ⟨fun _ => .ok [fmtVid, fmtAud], [], "sess6", .ok (), fun _ => true⟩

/-- Environment for C7: a matching video rendition but zero audio-only
candidates. -/
def envC7 : Env :=
  ⟨fun _ => .ok [fmtVid], [], "sess7", .ok (), fun _ => true⟩

/-- Environment for C8: fully healthy request. -/
def envC8 : Env :=
  ⟨fun _ => .ok [fmtVid, fmtAud], [], "sess8", .ok (), fun _ => true⟩

/-- Environment for C9: fully healthy request. -/
def envC9 : Env :=
  ⟨fun _ => .ok [fmtVid, fmtAud], [], "sess9", .ok (), fun _ => true⟩

/-- Environment for C10: healthy request with a realistic Netscape cookie
file: a comment line, a blank line, two cookie lines and a malformed
line. -/
def envC10 : Env :=
  ⟨fun _ => .ok [fmtVid, fmtAud],
    ["# Netscape HTTP Cookie File", "",
     ".example.com\tTRUE\t/\tTRUE\t0\tSID\tabc123",
     "malformed line",
     ".example.com\tTRUE\t/\tTRUE\t0\tHSID\tdef456"],
    "sess10", .ok (), fun _ => true⟩

/-! ## Basic lemmas about the handler -/

/-- The trace of `stream_video` is exactly the trace produced by the body:
the except clauses only translate the exception, they do not touch the
trace. -/
theorem stream_video_trace (env : Env) (url : String) (resolution : Int) :
    (stream_video env url resolution).trace = (streamBody env url resolution).2 := by
  unfold stream_video
  rcases h : streamBody env url resolution with ⟨r, t⟩
  rcases r with e | loc
  · cases e <;> rfl
  · rfl

/-- The session/spawn/poll phase does not change the selection fields or
the semaphore counters of the trace it is given. -/
theorem afterSelect_preserves (env : Env) (vid aud : Format) (t : Trace) :
    (afterSelect env vid aud t).2.videoSel = t.videoSel ∧
    (afterSelect env vid aud t).2.audioSel = t.audioSel ∧
    (afterSelect env vid aud t).2.resolvedUrl = t.resolvedUrl ∧
    (afterSelect env vid aud t).2.semAcquires = t.semAcquires ∧
    (afterSelect env vid aud t).2.semReleases = t.semReleases := by
  unfold afterSelect
  cases hs : env.spawnResult with
  | error m => exact ⟨rfl, rfl, rfl, rfl, rfl⟩
  | ok u =>
    rcases hp : poll env.playlistExists with ⟨b, c, s⟩
    cases b <;> exact ⟨rfl, rfl, rfl, rfl, rfl⟩

/-- On every control path, the body records that the resolver was called
on the query-stripped URL, and performs zero acquire and zero release
operations on `download_semaphore`. -/
theorem streamBody_trace_base (env : Env) (url : String) (resolution : Int) :
    (streamBody env url resolution).2.resolvedUrl = some (cleanUrl url) ∧
    (streamBody env url resolution).2.semAcquires = 0 ∧
    (streamBody env url resolution).2.semReleases = 0 := by
  unfold streamBody
  cases h1 : env.extract (cleanUrl url) with
  | error m => exact ⟨rfl, rfl, rfl⟩
  | ok formats =>
    dsimp only
    cases h2 : formats.find? (isVideoCandidate resolution) with
    | none => exact ⟨rfl, rfl, rfl⟩
    | some vid =>
      dsimp only
      cases h3 : pyMax abrKey (formats.filter isAudioCandidate) with
      | error e => exact ⟨rfl, rfl, rfl⟩
      | ok aud =>
        dsimp only
        obtain ⟨-, -, hr, ha, hl⟩ := afterSelect_preserves env vid aud
          { resolvedUrl := some (cleanUrl url), videoSel := some vid,
            audioSel := some aud }
        exact ⟨hr, ha, hl⟩

/-- Once both formats are selected, the body is the session/spawn/poll
phase seeded with the selection trace. -/
theorem streamBody_selected (env : Env) (url : String) (resolution : Int)
    (fmts : List Format) (v a : Format)
    (h1 : env.extract (cleanUrl url) = .ok fmts)
    (h2 : fmts.find? (isVideoCandidate resolution) = some v)
    (h3 : pyMax abrKey (fmts.filter isAudioCandidate) = .ok a) :
    streamBody env url resolution =
      afterSelect env v a
        { resolvedUrl := some (cleanUrl url), videoSel := some v,
          audioSel := some a } := by
  unfold streamBody
  rw [h1]; dsimp only; rw [h2]; dsimp only; rw [h3]

/-! ## Readiness-poll lemmas -/

/-- If the playlist never appears, the loop runs its whole fuel: one
existence check and one sleep per iteration, and reports failure. -/
theorem pollAux_never (ex : Nat → Bool) (h : ∀ i, ex i = false) :
    ∀ (fuel i : Nat), pollAux ex i fuel = (false, fuel, fuel) := by
  intro fuel
  induction fuel with
  | zero => intro i; rfl
  | succ n ih => intro i; simp [pollAux, h i, ih (i + 1)]

/-- If the playlist is present at check `k` (with `k` inside the budget),
the loop reports success, performs at most `k + 1` existence checks, and
its last check is not followed by a sleep (checks = sleeps + 1). -/
theorem pollAux_found (ex : Nat → Bool) :
    ∀ (fuel k i : Nat), k < fuel → ex (i + k) = true →
      (pollAux ex i fuel).1 = true ∧
      (pollAux ex i fuel).2.1 ≤ k + 1 ∧
      (pollAux ex i fuel).2.1 = (pollAux ex i fuel).2.2 + 1 := by
  intro fuel
  induction fuel with
  | zero => intro k i hk; exact absurd hk (Nat.not_lt_zero k)
  | succ n ih =>
    intro k i hk hex
    by_cases hi : ex i
    · simp [pollAux, hi]
    · have hk0 : k ≠ 0 := by
        intro h0
        rw [h0, Nat.add_zero] at hex
        exact hi hex
      obtain ⟨k1, rfl⟩ : ∃ k1, k = k1 + 1 := ⟨k - 1, by omega⟩
      have hex1 : ex (i + 1 + k1) = true := by
        have he : i + 1 + k1 = i + (k1 + 1) := by omega
        rw [he]; exact hex
      obtain ⟨hf, hc, hcs⟩ := ih k1 (i + 1) (by omega) hex1
      have hred : pollAux ex i (n + 1) =
          ((pollAux ex (i + 1) n).1, (pollAux ex (i + 1) n).2.1 + 1,
            (pollAux ex (i + 1) n).2.2 + 1) := by
        simp [pollAux, hi]
      rw [hred]
      dsimp only
      exact ⟨hf, by omega, by omega⟩

/-! ## Selection lemmas -/

/-- `List.find?` returns the first element satisfying the predicate: the
list splits at the result, everything earlier fails the predicate. -/
theorem find_first {α : Type} {p : α → Bool} :
    ∀ {l : List α} {v : α}, l.find? p = some v →
      p v = true ∧ ∃ l1 l2, l = l1 ++ v :: l2 ∧ ∀ x ∈ l1, p x = false := by
  intro l
  induction l with
  | nil => intro v h; simp [List.find?] at h
  | cons a l ih =>
    intro v h
    by_cases ha : p a
    · rw [List.find?_cons_of_pos _ ha] at h
      obtain rfl : a = v := by injection h
      exact ⟨ha, [], l, rfl, by simp⟩
    · rw [List.find?_cons_of_neg _ ha] at h
      obtain ⟨hv, l1, l2, hdec, hfail⟩ := ih h
      refine ⟨hv, a :: l1, l2, by rw [hdec]; rfl, ?_⟩
      intro x hx
      rcases List.mem_cons.mp hx with rfl | hx1
      · exact Bool.of_not_eq_true ha |>.symm ▸ rfl
      · exact hfail x hx1

/-- When the `abr` entry is not an explicit null, the Python key
`x.get("abr", 0)` is the numeric value `abrVal`. -/
theorem abrKey_eq_val {f : Format} (h : f.abr ≠ some none) :
    abrKey f = some (abrVal f) := by
  unfold abrKey abrVal
  rcases hf : f.abr with - | q1
  · rfl
  · rcases q1 with - | q
    · exact absurd hf h
    · rfl

/-- The running-maximum loop on all-numeric keys: it succeeds and returns
the first element of `best :: rest` whose key equals the maximum. -/
theorem pyMaxGo_first (key : Format → Option ℚ) (val : Format → ℚ) :
    ∀ (rest : List Format) (best : Format),
      key best = some (val best) → (∀ f ∈ rest, key f = some (val f)) →
      ∃ m, pyMaxGo key best rest = .ok m ∧
        (∀ x ∈ best :: rest, val x ≤ val m) ∧
        ∃ l1 l2, best :: rest = l1 ++ m :: l2 ∧ ∀ y ∈ l1, val y < val m := by
  intro rest
  induction rest with
  | nil =>
    intro best hb _
    exact ⟨best, rfl, by simp, [], [], by simp, by simp⟩
  | cons y ys ih =>
    intro best hb hr
    have hy : key y = some (val y) := hr y (by simp)
    have hys : ∀ f ∈ ys, key f = some (val f) := fun f hf => hr f (by simp [hf])
    by_cases hcmp : val best < val y
    · have hstep : pyMaxGo key best (y :: ys) = pyMaxGo key y ys := by
        simp [pyMaxGo, pyGt, hy, hb, hcmp]
      obtain ⟨m, hm, hle, l1, l2, hdec, hlt⟩ := ih y hy hys
      have hym : val y ≤ val m := hle y (by simp)
      refine ⟨m, by rw [hstep]; exact hm, ?_, best :: l1, l2, ?_, ?_⟩
      · intro x hx
        rcases List.mem_cons.mp hx with rfl | hx1
        · exact le_of_lt (lt_of_lt_of_le hcmp hym)
        · exact hle x hx1
      · rw [List.cons_append, hdec]
      · intro z hz
        rcases List.mem_cons.mp hz with rfl | hz1
        · exact lt_of_lt_of_le hcmp hym
        · exact hlt z hz1
    · have hstep : pyMaxGo key best (y :: ys) = pyMaxGo key best ys := by
        simp [pyMaxGo, pyGt, hy, hb, hcmp]
      obtain ⟨m, hm, hle, l1, l2, hdec, hlt⟩ := ih best hb hys
      have hbm : val best ≤ val m := hle best (by simp)
      have hym : val y ≤ val m := le_trans (le_of_not_lt hcmp) hbm
      have hall : ∀ x ∈ best :: y :: ys, val x ≤ val m := by
        intro x hx
        rcases List.mem_cons.mp hx with rfl | hx1
        · exact hbm
        rcases List.mem_cons.mp hx1 with rfl | hx2
        · exact hym
        · exact hle x (by simp [hx2])
      cases l1 with
      | nil =>
        rw [List.nil_append] at hdec
        injection hdec with hm2 hys2
        refine ⟨m, by rw [hstep]; exact hm, hall, [], y :: ys, ?_, by simp⟩
        rw [List.nil_append, hm2]
      | cons b l1t =>
        rw [List.cons_append] at hdec
        injection hdec with hb2 hys2
        subst hb2
        have hbestlt : val best < val m := hlt best (by simp)
        refine ⟨m, by rw [hstep]; exact hm, hall, best :: y :: l1t, l2, ?_, ?_⟩
        · rw [hys2]; rfl
        · intro z hz
          rcases List.mem_cons.mp hz with rfl | hz1
          · exact hbestlt
          rcases List.mem_cons.mp hz1 with rfl | hz2
          · exact lt_of_le_of_lt (le_of_not_lt hcmp) hbestlt
          · exact hlt z (by simp [hz2])

/-- CPython `max` on a nonempty list of all-numeric keys: the first
element attaining the maximum key wins. -/
theorem pyMax_first (key : Format → Option ℚ) (val : Format → ℚ)
    (l : List Format) (hne : l ≠ [])
    (h : ∀ f ∈ l, key f = some (val f)) :
    ∃ m, pyMax key l = .ok m ∧ (∀ x ∈ l, val x ≤ val m) ∧
      ∃ l1 l2, l = l1 ++ m :: l2 ∧ ∀ y ∈ l1, val y < val m := by
  match l with
  | [] => exact absurd rfl hne
  | x :: xs =>
    exact pyMaxGo_first key val xs x (h x (by simp)) (fun f hf => h f (by simp [hf]))

/-! ## Cookie header: claim-side description -/

/-- One step of the claim-side description, phrased through the code's
per-line parser. -/
theorem cookiePairsSpec_cons (l : String) (ls : List String) :
    cookiePairsSpec (l :: ls) =
      match cookiePair l with
      | none => cookiePairsSpec ls
      | some p => p :: cookiePairsSpec ls := by
  simp only [cookiePairsSpec, cookiePair]
  by_cases h1 : l.startsWith "#"
  · simp [h1]
  · by_cases h2 : l.trim == ""
    · simp [h1, h2]
    · by_cases h3 : 7 ≤ (l.trim.splitOn "\t").length
      · simp [h1, h2, h3]
      · simp [h1, h2, h3]

/-- The code's cookie parser produces exactly the pairs the claim
describes. -/
theorem cookiePairs_eq_spec :
    ∀ lines : List String, lines.filterMap cookiePair = cookiePairsSpec lines := by
  intro lines
  induction lines with
  | nil => rfl
  | cons l ls ih =>
    rw [List.filterMap_cons, cookiePairsSpec_cons]
    cases hc : cookiePair l with
    | none => exact ih
    | some p => dsimp only; rw [ih]

/-- The code's cookie header equals the claim's description of it. -/
theorem load_cookies_header_eq_spec (lines : List String) :
    load_cookies_header lines = cookiesHeaderSpec lines := by
  unfold load_cookies_header cookiesHeaderSpec
  rw [cookiePairs_eq_spec]

/-! ## Query-string stripping lemmas -/

/-- `dropWhile` either drops everything or stops at an element failing the
predicate. -/
theorem dropWhile_head {α : Type} (p : α → Bool) :
    ∀ l : List α, l.dropWhile p = [] ∨
      ∃ c tl, l.dropWhile p = c :: tl ∧ p c = false := by
  intro l
  induction l with
  | nil => exact Or.inl rfl
  | cons a l ih =>
    by_cases ha : p a
    · rw [List.dropWhile_cons_of_pos ha]
      exact ih
    · rw [List.dropWhile_cons_of_neg ha]
      exact Or.inr ⟨a, l, rfl, Bool.not_eq_true _ ▸ (by simpa using ha)⟩

/-- A list none of whose elements fails the predicate is its own
`takeWhile`. -/
theorem takeWhile_all {α : Type} (p : α → Bool) :
    ∀ l : List α, (∀ c ∈ l, p c = true) → l.takeWhile p = l := by
  intro l
  induction l with
  | nil => intro h; rfl
  | cons a l ih =>
    intro h
    rw [List.takeWhile_cons_of_pos (h a (by simp))]
    rw [ih (fun c hc => h c (by simp [hc]))]

/-! ## Outcomes of the session/spawn/poll phase -/

/-- With a successful spawn and a poll that times out, the phase kills the
subprocess once and raises `HTTPException(500, "HLS playlist generation
failed")`, with the trace recording workspace directory, argv, check and
sleep counts. -/
theorem afterSelect_timeout (env : Env) (vid aud : Format) (t : Trace)
    (c s : Nat) (h4 : env.spawnResult = .ok ())
    (hp : poll env.playlistExists = (false, c, s)) :
    afterSelect env vid aud t =
      (.error (.httpException 500 "HLS playlist generation failed"),
       { t with mkdirDir := some (hlsRoot ++ "/" ++ env.sessionId),
                cmd := some (ffmpegArgs
                  ["-headers", "Cookie: " ++ load_cookies_header env.cookieLines ++ "\r\n"]
                  vid.url aud.url (hlsRoot ++ "/" ++ env.sessionId)),
                checks := c, sleeps := s, killCount := 1 }) := by
  unfold afterSelect
  rw [h4, hp]

/-- With a successful spawn and a poll that finds the playlist, the phase
returns the redirect location `/hls/{sessionId}/index.m3u8`. -/
theorem afterSelect_ready (env : Env) (vid aud : Format) (t : Trace)
    (c s : Nat) (h4 : env.spawnResult = .ok ())
    (hp : poll env.playlistExists = (true, c, s)) :
    afterSelect env vid aud t =
      (.ok ("/hls/" ++ env.sessionId ++ "/index.m3u8"),
       { t with mkdirDir := some (hlsRoot ++ "/" ++ env.sessionId),
                cmd := some (ffmpegArgs
                  ["-headers", "Cookie: " ++ load_cookies_header env.cookieLines ++ "\r\n"]
                  vid.url aud.url (hlsRoot ++ "/" ++ env.sessionId)),
                checks := c, sleeps := s }) := by
  unfold afterSelect
  rw [h4, hp]

/-! ## Claims -/

/-- C1: the claim says every `/stream/` session acquires a permit from
`download_semaphore` (capacity 30) before any network or subprocess work
and releases it on every exit path.  The code defines the semaphore
(line 27) but the handler never touches it: on every environment — i.e.
on every control path, including the ones that perform catalog resolution
and spawn the muxer — the handler performs zero acquire and zero release
operations, while the resolver is always invoked.  This refutes the
claimed admission control and exhibits the code bug. -/
theorem c1_semaphore_never_touched (env : Env) (url : String) (resolution : Int) :
    (stream_video env url resolution).trace.semAcquires = 0 ∧
    (stream_video env url resolution).trace.semReleases = 0 ∧
    (stream_video env url resolution).trace.resolvedUrl = some (cleanUrl url) ∧
    download_semaphore_capacity = 30 := by
  rw [stream_video_trace]
  obtain ⟨hu, ha, hr⟩ := streamBody_trace_base env url resolution
  exact ⟨ha, hr, hu, rfl⟩

/-- C9: the catalog resolution call always receives `cleanUrl url`, which
is the input URL truncated at the first `?` character: the URL splits as
the stripped prefix (which contains no `?`) followed by a remainder that
is either empty or starts with `?`; and a URL without `?` is passed
unchanged. -/
theorem c9_query_stripped (env : Env) (url : String) (resolution : Int) :
    (stream_video env url resolution).trace.resolvedUrl = some (cleanUrl url) ∧
    (∃ rest, url.toList = (cleanUrl url).toList ++ rest ∧
      (∀ c ∈ (cleanUrl url).toList, c ≠ '?') ∧
      (rest = [] ∨ ∃ tl, rest = '?' :: tl)) ∧
    ((∀ c ∈ url.toList, c ≠ '?') → cleanUrl url = url) := by
  have hchars : (cleanUrl url).toList = url.toList.takeWhile (fun c => c != '?') := rfl
  refine ⟨?_, ?_, ?_⟩
  · rw [stream_video_trace]
    exact (streamBody_trace_base env url resolution).1
  · refine ⟨url.toList.dropWhile (fun c => c != '?'), ?_, ?_, ?_⟩
    · rw [hchars, List.takeWhile_append_dropWhile]
    · intro c hc
      rw [hchars] at hc
      have hp := List.mem_takeWhile_imp hc
      simpa using hp
    · rcases dropWhile_head (fun c => c != '?') url.toList with h | ⟨c, tl, hd, hc⟩
      · exact Or.inl h
      · right
        refine ⟨tl, ?_⟩
        have hcq : c = '?' := by simpa using hc
        rw [hd, hcq]
  · intro h
    have h1 : url.toList.takeWhile (fun c => c != '?') = url.toList :=
      takeWhile_all _ _ (fun c hc => by simpa using h c hc)
    unfold cleanUrl
    rw [h1]
    exact String.asString_toList url

/-- Witness for C9 at concrete inputs: a URL with a query string is
stripped at the `?` before reaching the resolver, and that a URL without
`?` is left unchanged. -/
theorem c9_query_stripped_witness :
    (stream_video envC9 "https://example.com/watch?v=abc&t=10" 1080).trace.resolvedUrl =
      some (cleanUrl "https://example.com/watch?v=abc&t=10") ∧
    cleanUrl "https://example.com/video" = "https://example.com/video" :=
  ⟨(c9_query_stripped envC9 "https://example.com/watch?v=abc&t=10" 1080).1,
   (c9_query_stripped envC9 "https://example.com/video" 1080).2.2 (by decide)⟩

/-- C6: whenever no catalog entry satisfies the video predicate (height
exactly the requested resolution, mp4 container), the handler answers
HTTP 404 with the detail `No {resolution}p stream available`, which names
the requested resolution. -/
theorem c6_no_match_404 (env : Env) (url : String) (resolution : Int)
    (fmts : List Format)
    (h1 : env.extract (cleanUrl url) = .ok fmts)
    (h2 : fmts.find? (isVideoCandidate resolution) = none) :
    (stream_video env url resolution).response =
      .httpError 404 ("No " ++ toString resolution ++ "p stream available") := by
  unfold stream_video streamBody
  rw [h1]; dsimp only; rw [h2]

/-- Witness for C6: a request for 720p against a catalog that only offers
1080p yields the 404 with the detail naming 720. -/
theorem c6_no_match_404_witness :
    (stream_video envC6 "https://example.com/v" 720).response =
      .httpError 404 "No 720p stream available" := by
  have h := c6_no_match_404 envC6 "https://example.com/v" 720 [fmtVid, fmtAud]
    rfl (by decide)
  rw [h]
  decide

/-- C7: a catalog with a matching video rendition but zero audio-only
candidates makes line 80's `max` raise `ValueError` on its empty input,
which the generic `except Exception` handler catches and surfaces as
HTTP 500 — a caught, distinguishable failure, not an unhandled crash. -/
theorem c7_no_audio_500 (env : Env) (url : String) (resolution : Int)
    (fmts : List Format) (v : Format)
    (h1 : env.extract (cleanUrl url) = .ok fmts)
    (h2 : fmts.find? (isVideoCandidate resolution) = some v)
    (h3 : fmts.filter isAudioCandidate = []) :
    (stream_video env url resolution).response =
      .httpError 500 (pyExcStr .valueErrorEmptyMax) := by
  unfold stream_video streamBody
  rw [h1]; dsimp only; rw [h2]; dsimp only; rw [h3]
  rfl

/-- Witness for C7: a catalog holding only the 1080p video rendition
gives the 500 carrying the empty-`max` message. -/
theorem c7_no_audio_500_witness :
    (stream_video envC7 "https://example.com/v" 1080).response =
      .httpError 500 (pyExcStr .valueErrorEmptyMax) :=
  c7_no_audio_500 envC7 "https://example.com/v" 1080 [fmtVid] fmtVid
    rfl (by decide) (by decide)

/-- C8: on a successful request the handler answers a redirect whose
location is `/hls/{sessionId}/index.m3u8`, and the workspace directory it
created for the request is `{HLS_ROOT}/{sessionId}` — the same freshly
drawn session identifier in both places. -/
theorem c8_redirect_location (env : Env) (url : String) (resolution : Int)
    (fmts : List Format) (v a : Format) (c s : Nat)
    (h1 : env.extract (cleanUrl url) = .ok fmts)
    (h2 : fmts.find? (isVideoCandidate resolution) = some v)
    (h3 : pyMax abrKey (fmts.filter isAudioCandidate) = .ok a)
    (h4 : env.spawnResult = .ok ())
    (hp : poll env.playlistExists = (true, c, s)) :
    (stream_video env url resolution).response =
      .redirect ("/hls/" ++ env.sessionId ++ "/index.m3u8") ∧
    (stream_video env url resolution).trace.mkdirDir =
      some (hlsRoot ++ "/" ++ env.sessionId) := by
  have hs := streamBody_selected env url resolution fmts v a h1 h2 h3
  have ha := afterSelect_ready env v a
    { resolvedUrl := some (cleanUrl url), videoSel := some v, audioSel := some a }
    c s h4 hp
  unfold stream_video
  rw [hs, ha]
  exact ⟨rfl, rfl⟩

/-- Witness for C8 at a concrete healthy environment. -/
theorem c8_redirect_location_witness :
    (stream_video envC8 "https://example.com/v" 1080).response =
      .redirect "/hls/sess8/index.m3u8" ∧
    (stream_video envC8 "https://example.com/v" 1080).trace.mkdirDir =
      some "/tmp/hls_segments/sess8" :=
  c8_redirect_location envC8 "https://example.com/v" 1080 [fmtVid, fmtAud]
    fmtVid fmtAud 1 0 rfl (by decide) rfl rfl rfl

/-- C4: when the playlist never appears, the poller performs exactly
`maxAttempts = 20` existence checks and the subprocess is killed exactly
once, and the request fails with HTTP 500 — but the detail actually
delivered is `"500: HLS playlist generation failed"`, NOT the fixed
message `"HLS playlist generation failed"` the claim states: the
`HTTPException` raised at line 130 inside the `try` block is caught by
the blanket `except Exception as e` of line 138 and re-raised with
`str(e)` as its detail, which prepends the status code.  This exhibits
the code bug in the claim's last part while proving its first two
parts. -/
theorem c4_timeout_behavior (env : Env) (url : String) (resolution : Int)
    (fmts : List Format) (v a : Format)
    (h1 : env.extract (cleanUrl url) = .ok fmts)
    (h2 : fmts.find? (isVideoCandidate resolution) = some v)
    (h3 : pyMax abrKey (fmts.filter isAudioCandidate) = .ok a)
    (h4 : env.spawnResult = .ok ())
    (h5 : ∀ i, env.playlistExists i = false) :
    (stream_video env url resolution).trace.checks = maxAttempts ∧
    (stream_video env url resolution).trace.killCount = 1 ∧
    (stream_video env url resolution).response =
      .httpError 500 ("500: " ++ "HLS playlist generation failed") ∧
    (stream_video env url resolution).response ≠
      .httpError 500 "HLS playlist generation failed" := by
  have hpoll : poll env.playlistExists = (false, maxAttempts, maxAttempts) :=
    pollAux_never env.playlistExists h5 maxAttempts 0
  have hs := streamBody_selected env url resolution fmts v a h1 h2 h3
  have ha := afterSelect_timeout env v a
    { resolvedUrl := some (cleanUrl url), videoSel := some v, audioSel := some a }
    maxAttempts maxAttempts h4 hpoll
  unfold stream_video
  rw [hs, ha]
  dsimp only [pyExcStr]
  exact ⟨rfl, rfl, by decide, by decide⟩

/-- Witness for C4 at a concrete environment whose playlist never
appears. -/
theorem c4_timeout_behavior_witness :
    (stream_video envC4 "https://example.com/v" 1080).trace.checks = maxAttempts ∧
    (stream_video envC4 "https://example.com/v" 1080).trace.killCount = 1 ∧
    (stream_video envC4 "https://example.com/v" 1080).response =
      .httpError 500 ("500: " ++ "HLS playlist generation failed") ∧
    (stream_video envC4 "https://example.com/v" 1080).response ≠
      .httpError 500 "HLS playlist generation failed" :=
  c4_timeout_behavior envC4 "https://example.com/v" 1080 [fmtVid, fmtAud]
    fmtVid fmtAud rfl (by decide) rfl rfl (fun i => rfl)

/-- C5: if the playlist is present at existence check `k` (0-indexed,
`k` within the 20-attempt budget), the handler succeeds with the
redirect, performs at most `k + 1` existence checks, and stops polling
as soon as it succeeds: its last check is not followed by a sleep
(checks = sleeps + 1), so it does not wait out the full budget. -/
theorem c5_poll_early_success (env : Env) (url : String) (resolution : Int)
    (fmts : List Format) (v a : Format) (k : Nat)
    (h1 : env.extract (cleanUrl url) = .ok fmts)
    (h2 : fmts.find? (isVideoCandidate resolution) = some v)
    (h3 : pyMax abrKey (fmts.filter isAudioCandidate) = .ok a)
    (h4 : env.spawnResult = .ok ())
    (hk : k < maxAttempts) (hex : env.playlistExists k = true) :
    (stream_video env url resolution).response =
      .redirect ("/hls/" ++ env.sessionId ++ "/index.m3u8") ∧
    (stream_video env url resolution).trace.checks ≤ k + 1 ∧
    (stream_video env url resolution).trace.checks =
      (stream_video env url resolution).trace.sleeps + 1 := by
  have hex0 : env.playlistExists (0 + k) = true := by
    rw [Nat.zero_add]; exact hex
  obtain ⟨hf, hc, hcs⟩ := pollAux_found env.playlistExists maxAttempts k 0 hk hex0
  rcases hp : poll env.playlistExists with ⟨b, c, s⟩
  have hpoll : pollAux env.playlistExists 0 maxAttempts = (b, c, s) := hp
  rw [hpoll] at hf hc hcs
  dsimp only at hf hc hcs
  subst hf
  have hs := streamBody_selected env url resolution fmts v a h1 h2 h3
  have ha := afterSelect_ready env v a
    { resolvedUrl := some (cleanUrl url), videoSel := some v, audioSel := some a }
    c s h4 hp
  unfold stream_video
  rw [hs, ha]
  exact ⟨rfl, hc, hcs⟩

/-- Witness for C5: with the playlist present from check 3 on, the
request redirects after at most 4 checks and does not keep polling. -/
theorem c5_poll_early_success_witness :
    (stream_video envC5 "https://example.com/v" 1080).response =
      .redirect "/hls/sess5/index.m3u8" ∧
    (stream_video envC5 "https://example.com/v" 1080).trace.checks ≤ 3 + 1 ∧
    (stream_video envC5 "https://example.com/v" 1080).trace.checks =
      (stream_video envC5 "https://example.com/v" 1080).trace.sleeps + 1 :=
  c5_poll_early_success envC5 "https://example.com/v" 1080 [fmtVid, fmtAud]
    fmtVid fmtAud 3 rfl (by decide) rfl rfl (by decide) (by decide)

/-- The session/spawn/poll phase always records the built `ffmpeg` argv,
whatever the spawn and poll outcomes. -/
theorem afterSelect_cmd (env : Env) (vid aud : Format) (t : Trace) :
    (afterSelect env vid aud t).2.cmd =
      some (ffmpegArgs
        ["-headers", "Cookie: " ++ load_cookies_header env.cookieLines ++ "\r\n"]
        vid.url aud.url (hlsRoot ++ "/" ++ env.sessionId)) := by
  unfold afterSelect
  cases hs : env.spawnResult with
  | error m => rfl
  | ok u =>
    rcases hp : poll env.playlistExists with ⟨b, c, s⟩
    cases b <;> rfl

/-- C2 counterexample: the claim says a selected video rendition has no
audio and that selection fails when no rendition matches all four
conditions (video, no audio, mp4, exact height).  Against a catalog whose
only 1080p mp4 is a muxed rendition carrying audio (`acodec` present) the
handler succeeds and selects exactly that muxed rendition — the code never
tests `acodec` for the video pick — even though no rendition satisfies the
claim's four conditions. -/
theorem c2_counterexample :
    (stream_video envC2 "https://example.com/v" 1080).response =
      .redirect "/hls/sess2/index.m3u8" ∧
    (stream_video envC2 "https://example.com/v" 1080).trace.videoSel = some fmtMux ∧
    fmtMux.acodec = some "mp4a.40.2" ∧
    (∀ f ∈ [fmtMux, fmtAud], ¬(f.vcodec ≠ some "none" ∧ f.acodec = some "none" ∧
      f.ext = some "mp4" ∧ f.height = some (1080 : Int))) := by
  exact ⟨by decide, by decide, rfl, by decide⟩

/-- C2 (amended): the selected video rendition is the first rendition in
catalog order that has video (`vcodec` not `"none"`), container mp4, and
height exactly the requested resolution — with no condition on audio
absence. -/
theorem c2_video_first_match (env : Env) (url : String) (resolution : Int)
    (fmts : List Format) (v : Format)
    (h1 : env.extract (cleanUrl url) = .ok fmts)
    (h2 : fmts.find? (isVideoCandidate resolution) = some v) :
    (stream_video env url resolution).trace.videoSel = some v ∧
    v.vcodec ≠ some "none" ∧ v.height = some resolution ∧ v.ext = some "mp4" ∧
    ∃ l1 l2, fmts = l1 ++ v :: l2 ∧ ∀ x ∈ l1, isVideoCandidate resolution x = false := by
  obtain ⟨hp, l1, l2, hdec, hfail⟩ := find_first h2
  have hv : v.vcodec ≠ some "none" ∧ v.height = some resolution ∧ v.ext = some "mp4" := by
    unfold isVideoCandidate at hp
    simp only [Bool.and_eq_true, bne_iff_ne, beq_iff_eq] at hp
    exact ⟨hp.1.1, hp.1.2, hp.2⟩
  refine ⟨?_, hv.1, hv.2.1, hv.2.2, l1, l2, hdec, hfail⟩
  rw [stream_video_trace]
  unfold streamBody
  rw [h1]; dsimp only; rw [h2]; dsimp only
  cases h3 : pyMax abrKey (fmts.filter isAudioCandidate) with
  | error e => rfl
  | ok aud =>
    dsimp only
    exact (afterSelect_preserves env v aud _).1

/-- Witness for the amended C2 on a concrete healthy catalog. -/
theorem c2_video_first_match_witness :
    (stream_video envC2w "https://example.com/v" 1080).trace.videoSel = some fmtVid ∧
    fmtVid.vcodec ≠ some "none" ∧ fmtVid.height = some 1080 ∧ fmtVid.ext = some "mp4" ∧
    ∃ l1 l2, [fmtVid, fmtAud] = l1 ++ fmtVid :: l2 ∧
      ∀ x ∈ l1, isVideoCandidate 1080 x = false :=
  c2_video_first_match envC2w "https://example.com/v" 1080 [fmtVid, fmtAud] fmtVid
    rfl (by decide)

/-- C3 counterexample: the claim says that on any catalog with an
audio-only candidate the selected audio maximises the bitrate with a
missing-or-null bitrate counting as 0.  Against a catalog whose first
audio-only candidate carries an explicit null bitrate (and a second one
at 128 kbps), the handler selects NO audio rendition at all: Python
compares `128 > None`, raises `TypeError`, and the request dies with a
500 from the generic handler. -/
theorem c3_counterexample :
    isAudioCandidate fmtAudNull = true ∧ isAudioCandidate fmtAud = true ∧
    (stream_video envC3 "https://example.com/v" 1080).trace.audioSel = none ∧
    (stream_video envC3 "https://example.com/v" 1080).response =
      .httpError 500 (pyExcStr .typeErrorCmp) := by
  exact ⟨rfl, rfl, by decide, by decide⟩

/-- C3 (amended): on any catalog with at least one audio-only candidate
in which no audio-only candidate has an explicitly null bitrate, the
selected audio rendition is an audio-only candidate maximising the
average bitrate (a missing bitrate counting as 0), and ties are broken by
catalog order: every candidate before the selected one is strictly
worse.  (A null bitrate reached by a comparison instead raises a
`TypeError` surfaced as a 500, as the counterexample shows.) -/
theorem c3_audio_max_first (env : Env) (url : String) (resolution : Int)
    (fmts : List Format) (v : Format)
    (h1 : env.extract (cleanUrl url) = .ok fmts)
    (h2 : fmts.find? (isVideoCandidate resolution) = some v)
    (h3 : fmts.filter isAudioCandidate ≠ [])
    (h4 : ∀ f ∈ fmts.filter isAudioCandidate, f.abr ≠ some none) :
    ∃ a, (stream_video env url resolution).trace.audioSel = some a ∧
      a ∈ fmts ∧ isAudioCandidate a = true ∧
      (∀ x ∈ fmts.filter isAudioCandidate, abrVal x ≤ abrVal a) ∧
      ∃ l1 l2, fmts.filter isAudioCandidate = l1 ++ a :: l2 ∧
        ∀ y ∈ l1, abrVal y < abrVal a := by
  obtain ⟨m, hm, hle, l1, l2, hdec, hlt⟩ :=
    pyMax_first abrKey abrVal (fmts.filter isAudioCandidate) h3
      (fun f hf => abrKey_eq_val (h4 f hf))
  have hmem : m ∈ fmts.filter isAudioCandidate := by
    rw [hdec]
    exact List.mem_append_right _ (by simp)
  obtain ⟨hmf, hma⟩ := List.mem_filter.mp hmem
  refine ⟨m, ?_, hmf, hma, hle, l1, l2, hdec, hlt⟩
  rw [stream_video_trace]
  unfold streamBody
  rw [h1]; dsimp only; rw [h2]; dsimp only; rw [hm]; dsimp only
  exact (afterSelect_preserves env v m _).2.1

/-- Witness for the amended C3: two numeric audio-only candidates, the
better one last; the handler selects it and it dominates the first. -/
theorem c3_audio_max_first_witness :
    ∃ a, (stream_video envC3w "https://example.com/v" 1080).trace.audioSel = some a ∧
      a ∈ [fmtVid, fmtAud64, fmtAud] ∧ isAudioCandidate a = true ∧
      (∀ x ∈ [fmtVid, fmtAud64, fmtAud].filter isAudioCandidate, abrVal x ≤ abrVal a) ∧
      ∃ l1 l2, [fmtVid, fmtAud64, fmtAud].filter isAudioCandidate = l1 ++ a :: l2 ∧
        ∀ y ∈ l1, abrVal y < abrVal a :=
  c3_audio_max_first envC3w "https://example.com/v" 1080 [fmtVid, fmtAud64, fmtAud]
    fmtVid rfl (by decide) (by decide) (by decide)

/-- C10: the cookie header the handler builds equals the claim-side
description (skip `#`-comment lines and blank lines, skip lines with
fewer than 7 tab-separated fields, take `field6=field7` of the remaining
lines in file order, join with `"; "`), and the `ffmpeg` argv carries
that same single header string on BOTH the video input and the audio
input. -/
theorem c10_cookie_header (env : Env) (url : String) (resolution : Int)
    (fmts : List Format) (v a : Format)
    (h1 : env.extract (cleanUrl url) = .ok fmts)
    (h2 : fmts.find? (isVideoCandidate resolution) = some v)
    (h3 : pyMax abrKey (fmts.filter isAudioCandidate) = .ok a) :
    load_cookies_header env.cookieLines = cookiesHeaderSpec env.cookieLines ∧
    (stream_video env url resolution).trace.cmd =
      some (["ffmpeg", "-hide_banner", "-loglevel", "error",
             "-headers", "Cookie: " ++ cookiesHeaderSpec env.cookieLines ++ "\r\n",
             "-i", v.url,
             "-headers", "Cookie: " ++ cookiesHeaderSpec env.cookieLines ++ "\r\n",
             "-i", a.url,
             "-c:v", "copy", "-c:a", "copy", "-f", "hls", "-hls_time", "4",
             "-hls_list_size", "0", "-hls_flags", "delete_segments+append_list",
             "-hls_segment_filename",
             hlsRoot ++ "/" ++ env.sessionId ++ "/seg_%03d.ts",
             hlsRoot ++ "/" ++ env.sessionId ++ "/index.m3u8"]) := by
  refine ⟨load_cookies_header_eq_spec env.cookieLines, ?_⟩
  rw [stream_video_trace, streamBody_selected env url resolution fmts v a h1 h2 h3,
    afterSelect_cmd, load_cookies_header_eq_spec]
  rfl

/-- Witness for C10 on a realistic cookies file (comment line, blank
line, two cookie lines, one malformed line). -/
theorem c10_cookie_header_witness :
    load_cookies_header envC10.cookieLines = cookiesHeaderSpec envC10.cookieLines ∧
    (stream_video envC10 "https://example.com/v" 1080).trace.cmd =
      some (["ffmpeg", "-hide_banner", "-loglevel", "error",
             "-headers", "Cookie: " ++ cookiesHeaderSpec envC10.cookieLines ++ "\r\n",
             "-i", fmtVid.url,
             "-headers", "Cookie: " ++ cookiesHeaderSpec envC10.cookieLines ++ "\r\n",
             "-i", fmtAud.url,
             "-c:v", "copy", "-c:a", "copy", "-f", "hls", "-hls_time", "4",
             "-hls_list_size", "0", "-hls_flags", "delete_segments+append_list",
             "-hls_segment_filename",
             hlsRoot ++ "/" ++ envC10.sessionId ++ "/seg_%03d.ts",
             hlsRoot ++ "/" ++ envC10.sessionId ++ "/index.m3u8"]) :=
  c10_cookie_header envC10 "https://example.com/v" 1080 [fmtVid, fmtAud]
    fmtVid fmtAud rfl (by decide) rfl
